import Mathlib

/-!
Shallow embedding of the STA_Challenge_Halo repository core:
the device catalog (`device_database.py`), the document fetcher
(`utils/web_utils.py` + `rag._get_manual_path`), the index store
(`rag._load_or_create_index`), the retrieval-answer engine
(`rag.ask_question`) and the image extractor (`utils/pdf_images.py`).

External effects (file system, HTTP download, embedding/LLM services,
PyMuPDF image enumeration) are modelled as explicit parameters of an
environment record; Python dicts become association lists with
first-match lookup (Python dicts have unique keys, so first-match
agrees with dict lookup); Python floats become rationals, with
`round(x, 3)` modelled as rounding `x * 1000` to the nearest integer.
-/

namespace Halo

/-- First-match lookup in an association list; models `dict.get(key)`. -/
def lookupAssoc {α : Type} (l : List (String × α)) (k : String) : Option α :=
  (l.find? (fun p => p.1 == k)).map (fun p => p.2)

/-- Python truthiness of an optional string: `None` and `""` are falsy. -/
def truthyStr : Option String → Bool
  | none => false
  | some s => !s.isEmpty

/-! ## device_database.py -/

/-- One model entry of `DEVICE_DATABASE`: the dict
`{"type": ..., "remote": ..., "local": ...}`.  `remote` may be `None`;
`local` is read with `.get("local")` in `_get_manual_path`, so it is
kept optional here as well. -/
structure ModelInfo where
  dtype : String
  remote : Option String
  localPath : Option String
  deriving Repr, DecidableEq

/-- One manufacturer entry of `DEVICE_DATABASE`: its name and its
`"models"` dict, in insertion order. -/
structure Manufacturer where
  name : String
  models : List (String × ModelInfo)
  deriving Repr, DecidableEq

/-- The `DEVICE_DATABASE` dict: manufacturers in insertion order. -/
abbrev Database := List Manufacturer

/-- `device_database.get_model_info`: direct lookup under the given
manufacturer; if that misses (manufacturer unknown, or model absent
there), fall back to scanning every manufacturer in order and return
the first hit; `None` when the model exists nowhere. -/
def get_model_info (db : Database) (manufacturer model : String) : Option ModelInfo :=
  let direct :=
    match db.find? (fun m => m.name == manufacturer) with
    | some mfr => lookupAssoc mfr.models model
    | none => none
  match direct with
  | some info => some info
  | none => db.findSome? (fun mfr => lookupAssoc mfr.models model)

/-- `device_database.get_model_docs` is a thin wrapper around
`get_model_info`. -/
def get_model_docs (db : Database) (manufacturer model : String) : Option ModelInfo :=
  get_model_info db manufacturer model

/-- The concrete `DEVICE_DATABASE` literal from `device_database.py`. -/
def DEVICE_DATABASE : Database :=
  [ { name := "BD Alaris",
      models :=
        [ ("8015",
           { dtype := "Infusion Pump",
             remote := some "https://www.bd.com/content/dam/bd-assets/na/medication-management-solutions/documents/instructions-for-use/Alaris-System-8015.pdf",
             localPath := some "manuals/Alaris-System-8015.pdf" }) ] },
    { name := "Dräger",
      models :=
        [ ("Apollo",
           { dtype := "Anesthesia Machine",
             remote := some "https://acmerevival.com/wp-content/uploads/2021/08/05-Drager-Apollo-Anesthesia-Machine-Manual.pdf",
             localPath := some "manuals/05-Drager-Apollo-Anesthesia-Machine-Manual.pdf" }),
          ("Fabius GS",
           { dtype := "Anesthesia Machine",
             remote := some "https://anesthesia.prescottsmed.com/wp-content/uploads/Fabius-GS-User-Manual.pdf",
             localPath := some "manuals/Fabius-GS-User-Manual.pdf" }),
          ("Atlan A100",
           { dtype := "Anesthesia Machine",
             remote := some "https://manuals.plus/m/9ae2363c9f26966d42f01d809e156b1d8c1eca401fbff3f8d4100751947ea0a8.pdf",
             localPath := some "manuals/Atlan_A_Series_User_Guide.pdf" }),
          ("Atlan A100 XL",
           { dtype := "Anesthesia Machine",
             remote := some "https://manuals.plus/m/9ae2363c9f26966d42f01d809e156b1d8c1eca401fbff3f8d4100751947ea0a8.pdf",
             localPath := some "manuals/Atlan_A_Series_User_Guide.pdf" }),
          ("Atlan A300",
           { dtype := "Anesthesia Machine",
             remote := some "https://manuals.plus/m/9ae2363c9f26966d42f01d809e156b1d8c1eca401fbff3f8d4100751947ea0a8.pdf",
             localPath := some "manuals/Atlan_A_Series_User_Guide.pdf" }),
          ("Atlan A300 XL",
           { dtype := "Anesthesia Machine",
             remote := some "https://manuals.plus/m/9ae2363c9f26966d42f01d809e156b1d8c1eca401fbff3f8d4100751947ea0a8.pdf",
             localPath := some "manuals/Atlan_A_Series_User_Guide.pdf" }),
          ("Atlan A350",
           { dtype := "Anesthesia Machine",
             remote := some "https://manuals.plus/m/9ae2363c9f26966d42f01d809e156b1d8c1eca401fbff3f8d4100751947ea0a8.pdf",
             localPath := some "manuals/Atlan_A_Series_User_Guide.pdf" }),
          ("Atlan A350 XL",
           { dtype := "Anesthesia Machine",
             remote := some "https://manuals.plus/m/9ae2363c9f26966d42f01d809e156b1d8c1eca401fbff3f8d4100751947ea0a8.pdf",
             localPath := some "manuals/Atlan_A_Series_User_Guide.pdf" }) ] },
    { name := "GE Healthcare",
      models :=
        [ ("B650",
           { dtype := "Patient Monitor",
             remote := none,
             localPath := some "manuals/carescape_b650.pdf" }),
          ("Aisys CS2",
           { dtype := "Anesthesia Machine",
             remote := some "https://sofia.medicalistes.fr/spip/IMG/pdf/aisys_cs2_user_s_reference_manual.pdf",
             localPath := some "manuals/aisys_cs2_user_s_reference_manual.pdf" }),
          ("Avance CS2",
           { dtype := "Anesthesia Machine",
             remote := some "https://www.gehealthcare.co.uk/-/jssmedia/800e8e7c4d914087a585f76d04cc0a69.pdf",
             localPath := some "manuals/ge_avance_cs2.pdf" }),
          ("Avance",
           { dtype := "Anesthesia Machine",
             remote := some "https://www.gehealthcare.co.uk/-/jssmedia/800e8e7c4d914087a585f76d04cc0a69.pdf",
             localPath := some "manuals/ge_avance_cs2.pdf" }) ] },
    { name := "Baxter",
      models :=
        [ ("AS50",
           { dtype := "Infusion Pump",
             remote := none,
             localPath := some "manuals/Baxter-AS50-Operators-Manual.pdf" }),
          ("A50",
           { dtype := "Infusion Pump",
             remote := none,
             localPath := some "manuals/Baxter-AS50-Operators-Manual.pdf" }) ] } ]

/-! ## utils/web_utils.py -/

/-- The ways a `requests.get` / file-write run of `download_pdf` can end;
stands for the network and disk behaviour outside the program. -/
inductive DownloadOutcome where
  | success
  | timeoutErr
  | requestErr (msg : String)
  | writeErr (msg : String)
  deriving Repr, DecidableEq

/-- `web_utils.download_pdf`: returns `True` on success and `False` on
timeout, request error or write error, each with its log line (the
`print` calls), never propagating the exception. -/
def download_pdf (outcome : DownloadOutcome) (url localPath : String) :
    Bool × List String :=
  match outcome with
  | .success =>
      (true, ["📥 Downloading PDF from: " ++ url,
              "✅ Downloaded and saved to: " ++ localPath])
  | .timeoutErr =>
      (false, ["📥 Downloading PDF from: " ++ url,
               "❌ Download timed out: " ++ url])
  | .requestErr e =>
      (false, ["📥 Downloading PDF from: " ++ url,
               "❌ Failed to download PDF: " ++ e])
  | .writeErr e =>
      (false, ["📥 Downloading PDF from: " ++ url,
               "❌ Failed to save PDF: " ++ e])

/-! ## rag.py -- manual resolution -/

/-- The environment `rag._get_manual_path` runs in: the catalog, which
paths exist on disk, and how a download of a given URL to a given
path would end. -/
structure FetchEnv where
  db : Database
  fileExists : String → Bool
  downloadOutcome : String → String → DownloadOutcome

/-- `rag._get_manual_path`: looks up the docs, prefers an existing
local file, otherwise downloads from the remote URL when one is
present; returns the path (`none` on every failure) together with the
log lines it prints, which distinguish the failure modes. -/
def get_manual_path (env : FetchEnv) (manufacturer model : String) :
    Option String × List String :=
  match get_model_docs env.db manufacturer model with
  | none => (none, [])
  | some docs =>
      if !truthyStr docs.localPath then (none, [])
      else
        let lp := docs.localPath.getD ""
        if env.fileExists lp then
          (some lp, ["📁 Using local manual: " ++ lp])
        else if truthyStr docs.remote then
          let url := docs.remote.getD ""
          let dl := download_pdf (env.downloadOutcome url lp) url lp
          if dl.1 then (some lp, dl.2)
          else (none, dl.2 ++
            ["⚠️ Could not download manual for " ++ manufacturer ++ " " ++ model])
        else
          (none, ["⚠️ No manual available for " ++ manufacturer ++ " " ++ model])

/-! ## rag.py -- index store -/

/-- `vector_indexes`, the directory constant `INDEX_DIR`. -/
def INDEX_DIR : String := "vector_indexes"

/-- `os.path.basename` for POSIX paths: the part of the string after
the last `/` (the whole string when it has no `/`). -/
def baseName (p : String) : String :=
  String.mk (p.toList.foldl (fun acc c => if c = '/' then [] else acc ++ [c]) [])

/-- Index of the last `.` in a character list, if any. -/
def lastDotIdx (cs : List Char) : Option Nat :=
  ((List.range cs.length).filter (fun i => cs.get? i == some '.')).getLast?

/-- The stem part of `os.path.splitext` on a basename: cut at the last
dot, unless every character before that dot is itself a dot (then the
name has no extension, as for `.bashrc`). -/
def splitextStem (s : String) : String :=
  let cs := s.toList
  match lastDotIdx cs with
  | none => s
  | some i =>
      if (cs.take i).all (fun c => c == '.') then s
      else String.mk (cs.take i)

/-- `os.path.splitext(os.path.basename(pdf_path))[0]`, the manual name
used as the index cache key. -/
def manualName (pdfPath : String) : String :=
  splitextStem (baseName pdfPath)

/-- `f"{INDEX_DIR}/{manual_name}"`, the persisted index location. -/
def indexPath (pdfPath : String) : String :=
  INDEX_DIR ++ "/" ++ manualName pdfPath

/-- Which branch `_load_or_create_index` took. -/
inductive IndexAction where
  | loaded
  | created
  deriving Repr, DecidableEq

/-- The file-system state `_load_or_create_index` reads and writes. -/
structure IndexFS where
  pathExists : String → Bool

/-- `rag._load_or_create_index` as a state transformer on the file
system: load when both the index directory and its `docstore.json`
exist, otherwise build and persist (persisting creates the directory
and writes `docstore.json` in it). -/
def load_or_create_index (fs : IndexFS) (pdfPath : String) :
    IndexAction × IndexFS :=
  let ip := indexPath pdfPath
  if fs.pathExists ip && fs.pathExists (ip ++ "/docstore.json") then
    (IndexAction.loaded, fs)
  else
    (IndexAction.created,
     { pathExists := fun p =>
         p == ip || p == ip ++ "/docstore.json" || fs.pathExists p })

/-! ## utils/pdf_images.py -/

/-- One raster image as PyMuPDF reports it: its stored width/height and
file extension, plus whether `doc.extract_image` succeeds on it (the
per-image `try`/`except`). -/
structure RawImage where
  width : Nat
  height : Nat
  ext : String
  extractOk : Bool
  deriving Repr, DecidableEq

/-- A PDF as the extractor sees it: for each page, the list
`page.get_images(full=True)` in order. -/
structure PdfDoc where
  pages : List (List RawImage)
  deriving Repr

/-- One surviving entry of the persisted image index:
`{"filename": ..., "width": ..., "height": ...}`. -/
structure ImgEntry where
  filename : String
  width : Nat
  height : Nat
  deriving Repr, DecidableEq

/-- The page-to-images index (`index.json`): page labels in insertion
order, only pages that kept at least one image. -/
abbrev PageIndex := List (String × List ImgEntry)

/-- The inner loop of `extract_images_from_pdf` over one page:
enumerate the raw images, skip a failed extraction, skip any image
whose width or height is below the minimum, and name survivors
`page_<label>_img_<index>.<ext>` using the original enumeration
index. -/
def extractPage (pageLabel : String) (imgs : List RawImage)
    (minWidth minHeight : Nat) : List ImgEntry :=
  imgs.enum.filterMap fun p =>
    let imgIndex := p.1
    let img := p.2
    if !img.extractOk then none
    else if img.width < minWidth || img.height < minHeight then none
    else some
      { filename := "page_" ++ pageLabel ++ "_img_" ++ toString imgIndex
          ++ "." ++ img.ext,
        width := img.width, height := img.height }

/-- The fresh-extraction pass of `extract_images_from_pdf`: pages are
labelled `str(page_num + 1)`, pages without raw images are skipped,
and a page entry emptied by the filters is deleted again. -/
def extractAllPages (doc : PdfDoc) (minWidth minHeight : Nat) : PageIndex :=
  doc.pages.enum.filterMap fun p =>
    let pageLabel := toString (p.1 + 1)
    let imgs := p.2
    if imgs.isEmpty then none
    else
      let entries := extractPage pageLabel imgs minWidth minHeight
      if entries.isEmpty then none else some (pageLabel, entries)

/-- The cache state of the extractor for one PDF: whether the PDF file
itself exists, and the persisted `index.json` content if a previous
pass wrote one. -/
structure ImgState where
  pdfFound : Bool
  cache : Option PageIndex

/-- `pdf_images.extract_images_from_pdf` as a state transformer:
missing PDF gives `{}`; an existing `index.json` is loaded and
returned as-is (no re-filtering); otherwise a fresh pass runs and its
result is persisted. -/
def extract_images_from_pdf (st : ImgState) (doc : PdfDoc)
    (minWidth minHeight : Nat) : PageIndex × ImgState :=
  if !st.pdfFound then ([], st)
  else
    match st.cache with
    | some idx => (idx, st)
    | none =>
        let idx := extractAllPages doc minWidth minHeight
        (idx, { st with cache := some idx })

/-- One element of the list `get_images_for_pages` returns. -/
structure ImageOut where
  url : String
  page : String
  width : Nat
  height : Nat
  deriving Repr, DecidableEq

/-- Packaging of one cached entry for the response:
`{"url": f"/manual_images/{pdf_name}/{filename}", "page": ..., ...}`. -/
def mkImageOut (pdfName page : String) (e : ImgEntry) : ImageOut :=
  { url := "/manual_images/" ++ pdfName ++ "/" ++ e.filename,
    page := page, width := e.width, height := e.height }

/-- The accumulating loop of `get_images_for_pages` over the requested
page labels: for each page present in the index, append all its
images in order. -/
def imagesLoop (pageImages : PageIndex) (pdfName : String) :
    List String → List ImageOut → List ImageOut
  | [], acc => acc
  | page :: rest, acc =>
      match lookupAssoc pageImages page with
      | some imgs =>
          imagesLoop pageImages pdfName rest
            (acc ++ imgs.map (mkImageOut pdfName page))
      | none => imagesLoop pageImages pdfName rest acc

/-- `pdf_images.get_images_for_pages`: run the (cached) extraction with
the default 100 by 100 minimum, short-circuit on an empty index, then
collect the images of the requested pages in request order. -/
def get_images_for_pages (st : ImgState) (doc : PdfDoc)
    (pdfPath : String) (pageNumbers : List String) :
    List ImageOut × ImgState :=
  let ex := extract_images_from_pdf st doc 100 100
  let pageImages := ex.1
  if pageImages.isEmpty then ([], ex.2)
  else (imagesLoop pageImages (manualName pdfPath) pageNumbers [], ex.2)

/-! ## Rounding -/

/-- Python `round(x, 3)` on a score, modelled over the rationals:
scale by 1000, round to the nearest integer with ties going to the
even neighbour (Python rounds half to even), and scale back. -/
def round3 (q : ℚ) : ℚ :=
  let scaled := q * 1000
  let f : ℤ := ⌊scaled⌋
  let frac := scaled - (f : ℚ)
  let n : ℤ :=
    if frac < 1/2 then f
    else if 1/2 < frac then f + 1
    else if f % 2 = 0 then f else f + 1
  (n : ℚ) / 1000

/-! ## rag.py -- retrieval-answer engine -/

/-- The metadata keys `ask_question` probes on a retrieved node. -/
structure NodeMetadata where
  pageLabel : Option String
  page : Option String
  pageNumber : Option String
  deriving Repr, DecidableEq

/-- One `NodeWithScore` as the engine reads it: chunk text, optional
similarity score, and source metadata. -/
structure RetrievedNode where
  text : String
  score : Option ℚ
  metadata : NodeMetadata
  deriving Repr, DecidableEq

/-- Python `a or b` on optional strings: first truthy operand,
otherwise the second operand unchanged. -/
def pyOr (a b : Option String) : Option String :=
  if truthyStr a then a else b

/-- `metadata.get('page_label') or metadata.get('page') or
metadata.get('page_number')`. -/
def pageOf (n : RetrievedNode) : Option String :=
  pyOr n.metadata.pageLabel (pyOr n.metadata.page n.metadata.pageNumber)

/-- One message of the chat history. -/
structure ChatMsg where
  role : String
  content : String
  deriving Repr, DecidableEq

/-- One entry of the `sources` list in the result. -/
structure Source where
  text : String
  score : ℚ
  page : Option String
  deriving Repr, DecidableEq

/-- The display truncation: chunks longer than 500 characters keep
their first 500 characters and gain a `"..."` marker. -/
def displayText (t : String) : String :=
  if t.length > 500 then t.take 500 ++ "..." else t

/-- Packaging of one retrieved node into a `sources` entry, per the
loop body at rag.py lines 218-241. -/
def mkSource (n : RetrievedNode) : Source :=
  { text := displayText n.text,
    score := round3 (n.score.getD 0),
    page := pageOf n }

/-- The dict `ask_question` returns. -/
structure AnswerResult where
  answer : Option String
  error : Option String
  sources : List Source
  confidence : ℚ
  images : List ImageOut
  deriving Repr, DecidableEq

/-- The `except` branch of `ask_question`. -/
def failResult (e : String) : AnswerResult :=
  { answer := none,
    error := some ("Error processing question: " ++ e),
    sources := [], confidence := 0, images := [] }

/-- The early return when no manual path could be resolved. -/
def noManualResult (manufacturer model : String) : AnswerResult :=
  { answer := none,
    error := some ("No manual found for " ++ manufacturer ++ " " ++ model
      ++ ". Chat is not available for this device."),
    sources := [], confidence := 0, images := [] }

/-- `list[-4:]`: the last `n` elements. -/
def lastN {α : Type} (n : Nat) (l : List α) : List α :=
  l.drop (l.length - n)

/-- The history transcript: `"User: ..."` for role `user`,
`"Assistant: ..."` otherwise, over the last 4 messages. -/
def renderHistory (history : List ChatMsg) : String :=
  "Previous conversation for reference:\n" ++
    String.join ((lastN 4 history).map fun m =>
      (if m.role == "user" then "User" else "Assistant")
        ++ ": " ++ m.content ++ "\n")

/-- The prompt used when history is present. -/
def promptWithHistory (contextStr historyStr question : String) : String :=
  "Based on the following information from the device manual:\n\n"
    ++ contextStr ++ "\n\n" ++ historyStr ++ "\n\nCurrent question: "
    ++ question
    ++ "\n\nIMPORTANT: Answer the current question based on the manual information above.\n- If this is a follow-up question (e.g., \"what about...\", \"and how do I...\"), use the conversation history for context.\n- If this is a NEW TOPIC unrelated to the previous conversation, ignore the history and answer based solely on the manual.\n- Provide accurate, helpful information."

/-- The prompt used when no history is present. -/
def promptNoHistory (contextStr question : String) : String :=
  "Based on the following information from the device manual:\n\n"
    ++ contextStr ++ "\n\nQuestion: " ++ question
    ++ "\n\nPlease provide an accurate, helpful answer based on the manual information above."

/-- Prompt assembly of `ask_question`: `if history and len(history) > 0`
use the history prompt, else the plain prompt. -/
def buildPrompt (contextStr question : String)
    (history : Option (List ChatMsg)) : String :=
  match history with
  | some hist =>
      if hist.length > 0 then
        promptWithHistory contextStr (renderHistory hist) question
      else promptNoHistory contextStr question
  | none => promptNoHistory contextStr question

/-- The environment `ask_question` runs in.  `initLLM` is `_get_llm`
(which raises when no API key is set); `loadIndex` is the effectful
part of `_load_or_create_index` (parsing, embedding, persisting can
raise); `retrieve` is `index.as_retriever(similarity_top_k=3)
.retrieve(...)` keyed by manual path and query text (it embeds the
query, so it can raise too); `complete` is `llm.complete`;
`imagesFor` is `get_images_for_pages` on the file system (it can
raise).  Every raising call sits inside the `try` of `ask_question`. -/
structure RagEnv where
  fetch : FetchEnv
  initLLM : Except String Unit
  loadIndex : String → Except String Unit
  retrieve : String → String → Except String (List RetrievedNode)
  complete : String → Except String String
  imagesFor : String → List String → Except String (List ImageOut)

/-- Manual resolution at the top of `ask_question`: try the given
manufacturer, then fall back to the empty manufacturer when the first
attempt failed and the manufacturer string is truthy. -/
def resolveManualPath (env : RagEnv) (manufacturer model : String) :
    Option String :=
  match (get_manual_path env.fetch manufacturer model).1 with
  | some p => some p
  | none =>
      if !manufacturer.isEmpty then (get_manual_path env.fetch "" model).1
      else none

/-- `rag.ask_question`, additionally recording which nodes the
retrieval step returned (`none` when control never reached a
successful retrieval).  Mirrors rag.py lines 125-274: resolve the
manual, init the LLM, load or create the index, retrieve on the
current question text alone, build the prompt, generate, package
sources and confidence, attach capped images, and catch every
exception into a structured failure result. -/
def ask_question_traced (env : RagEnv) (manufacturer model question : String)
    (history : Option (List ChatMsg)) :
    AnswerResult × Option (List RetrievedNode) :=
  match resolveManualPath env manufacturer model with
  | none => (noManualResult manufacturer model, none)
  | some manualPath =>
    match env.initLLM with
    | .error e => (failResult e, none)
    | .ok _ =>
    match env.loadIndex manualPath with
    | .error e => (failResult e, none)
    | .ok _ =>
    match env.retrieve manualPath question with
    | .error e => (failResult e, none)
    | .ok retrievedNodes =>
      let contextStr :=
        String.intercalate "\n\n" (retrievedNodes.map (fun n => n.text))
      let fullPrompt := buildPrompt contextStr question history
      match env.complete fullPrompt with
      | .error e => (failResult e, some retrievedNodes)
      | .ok responseText =>
          let sources := retrievedNodes.map mkSource
          let totalScore :=
            (retrievedNodes.map (fun n => n.score.getD 0)).sum
          let avgConfidence : ℚ :=
            if retrievedNodes.isEmpty then 0
            else totalScore / (retrievedNodes.length : ℚ)
          let pageNumbers := sources.filterMap fun s =>
            if truthyStr s.page then s.page else none
          let images :=
            if !pageNumbers.isEmpty && !manualPath.isEmpty then
              match env.imagesFor manualPath pageNumbers with
              | .ok imgs => imgs.take 5
              | .error _ => []
            else []
          ({ answer := some responseText, error := none,
             sources := sources, confidence := round3 avgConfidence,
             images := images }, some retrievedNodes)

/-- `rag.ask_question` proper: the result dict. -/
def ask_question (env : RagEnv) (manufacturer model question : String)
    (history : Option (List ChatMsg)) : AnswerResult :=
  (ask_question_traced env manufacturer model question history).1

/-! ## Specification-side description of `get_images_for_pages`

Written from the spec sentence "Returns only images for the requested
page labels, preserving input page order; pages with no images or
below-threshold images contribute nothing", to be compared with the
source translation `get_images_for_pages`. -/

/-- The images of the requested pages, in request order: for each
requested page label in turn, all cached images of that page (none
when the page has no entry). -/
def specImagesForPages (pageImages : PageIndex) (pdfName : String)
    (pageNumbers : List String) : List ImageOut :=
  pageNumbers.flatMap fun page =>
    ((lookupAssoc pageImages page).getD []).map (mkImageOut pdfName page)

/-! ## Concrete fixtures used by witnesses and counterexamples -/

/-- A one-device catalog for concrete runs. -/
def testDb : Database :=
  [{ name := "Acme",
     models := [("X1", { dtype := "Pump", remote := none,
                         localPath := some "manuals/x1.pdf" })] }]

/-- Fetch environment in which the local manual file exists. -/
def testFetch : FetchEnv :=
  { db := testDb, fileExists := fun _ => true,
    downloadOutcome := fun _ _ => DownloadOutcome.success }

/-- A retrieved node with similarity 0.1 on page 3. -/
def nodeA : RetrievedNode :=
  { text := "alpha", score := some (1/10),
    metadata := { pageLabel := some "3", page := none, pageNumber := none } }

/-- A retrieved node with similarity 0.2 and no page metadata. -/
def nodeB : RetrievedNode :=
  { text := "beta", score := some (2/10),
    metadata := { pageLabel := none, page := none, pageNumber := none } }

/-- A retrieved node with similarity 0.4 and no page metadata. -/
def nodeC : RetrievedNode :=
  { text := "gamma", score := some (4/10),
    metadata := { pageLabel := none, page := none, pageNumber := none } }

/-- An engine run in which every external call succeeds and retrieval
returns scores 0.1, 0.2, 0.4 (mean 7/30, not representable in three
decimals). -/
def successEnv : RagEnv :=
  { fetch := testFetch, initLLM := Except.ok (),
    loadIndex := fun _ => Except.ok (),
    retrieve := fun _ _ => Except.ok [nodeA, nodeB, nodeC],
    complete := fun _ => Except.ok "the answer",
    imagesFor := fun _ _ => Except.ok [] }

/-- A retrieved node whose chunk text is 501 characters long. -/
def longNode : RetrievedNode :=
  { text := String.mk (List.replicate 501 'a'), score := some (1/2),
    metadata := { pageLabel := none, page := none, pageNumber := none } }

/-- An engine run retrieving a single over-long chunk. -/
def longChunkEnv : RagEnv :=
  { fetch := testFetch, initLLM := Except.ok (),
    loadIndex := fun _ => Except.ok (),
    retrieve := fun _ _ => Except.ok [longNode],
    complete := fun _ => Except.ok "the answer",
    imagesFor := fun _ _ => Except.ok [] }

/-- An engine run whose catalog is empty, so no manual resolves. -/
def noManualEnv : RagEnv :=
  { fetch := { db := [], fileExists := fun _ => false,
               downloadOutcome := fun _ _ => DownloadOutcome.success },
    initLLM := Except.ok (), loadIndex := fun _ => Except.ok (),
    retrieve := fun _ _ => Except.ok [],
    complete := fun _ => Except.ok "the answer",
    imagesFor := fun _ _ => Except.ok [] }

/-- `successEnv` with an image lookup that always raises. -/
def badImagesEnv : RagEnv :=
  { fetch := testFetch, initLLM := Except.ok (),
    loadIndex := fun _ => Except.ok (),
    retrieve := fun _ _ => Except.ok [nodeA, nodeB, nodeC],
    complete := fun _ => Except.ok "the answer",
    imagesFor := fun _ _ => Except.error "image extraction blew up" }

/-- A catalog for the fetcher scenarios: one model with a remote URL,
one with no remote URL, neither present on disk. -/
def fetchDb : Database :=
  [{ name := "Wye",
     models :=
       [ ("M1", { dtype := "Pump", remote := some "http://host/m1.pdf",
                  localPath := some "manuals/m1.pdf" }),
         ("M2", { dtype := "Pump", remote := none,
                  localPath := some "manuals/m2.pdf" }) ] }]

/-- Fetch environment in which nothing is on disk and every download
times out. -/
def offlineFetch : FetchEnv :=
  { db := fetchDb, fileExists := fun _ => false,
    downloadOutcome := fun _ _ => DownloadOutcome.timeoutErr }

/-- The Baxter entry of the device database, used to witness the
fallback lookup. -/
def baxterInfo : ModelInfo :=
  { dtype := "Infusion Pump", remote := none,
    localPath := some "manuals/Baxter-AS50-Operators-Manual.pdf" }

/-- The Baxter manufacturer record of the device database. -/
def baxterEntry : Manufacturer :=
  { name := "Baxter", models := [("AS50", baxterInfo), ("A50", baxterInfo)] }

/-- A 50 by 50 raw image (decorative icon). -/
def smallRaw : RawImage :=
  { width := 50, height := 50, ext := "png", extractOk := true }

/-- A 400 by 300 raw image (a diagram). -/
def bigRaw : RawImage :=
  { width := 400, height := 300, ext := "png", extractOk := true }

/-- A one-page PDF carrying the icon and the diagram. -/
def doc7 : PdfDoc := { pages := [[smallRaw, bigRaw]] }

/-- The index entry the diagram survives as. -/
def bigEntry : ImgEntry :=
  { filename := "page_1_img_1.png", width := 400, height := 300 }

/-- A persisted index entry below the default size threshold. -/
def tinyEntry : ImgEntry :=
  { filename := "tiny.png", width := 50, height := 50 }

/-- Extractor state with a persisted index that contains a 50 by 50
image (as a pass with a lower threshold would leave behind). -/
def seededSt : ImgState :=
  { pdfFound := true, cache := some [("1", [tinyEntry])] }

/-- A PDF with no pages at all. -/
def emptyDoc : PdfDoc := { pages := [] }

/-- Fresh extractor state: the PDF exists, nothing is cached yet. -/
def freshSt : ImgState := { pdfFound := true, cache := none }

/-! ## Helper lemmas -/

theorem noManual_msg_pos (manufacturer model : String) :
    0 < ("No manual found for " ++ manufacturer ++ " " ++ model
      ++ ". Chat is not available for this device.").length := by
  simp only [String.length_append]
  have h : 0 < ("No manual found for ").length := by decide
  omega

theorem fail_msg_pos (e : String) :
    0 < ("Error processing question: " ++ e).length := by
  simp only [String.length_append]
  have h : 0 < ("Error processing question: ").length := by decide
  omega

/-- The result of `ask_question` when every stage succeeds, spelled out
once; every success-path theorem rewrites with this. -/
theorem ask_question_success (env : RagEnv) (manufacturer model question : String)
    (history : Option (List ChatMsg)) (mp ans : String)
    (nodes : List RetrievedNode)
    (h1 : resolveManualPath env manufacturer model = some mp)
    (h2 : env.initLLM = .ok ())
    (h3 : env.loadIndex mp = .ok ())
    (h4 : env.retrieve mp question = .ok nodes)
    (h5 : env.complete (buildPrompt
            (String.intercalate "\n\n" (nodes.map (fun n => n.text)))
            question history) = .ok ans) :
    ask_question env manufacturer model question history =
      { answer := some ans, error := none,
        sources := nodes.map mkSource,
        confidence := round3 (if nodes.isEmpty then 0
          else (nodes.map (fun n => n.score.getD 0)).sum / (nodes.length : ℚ)),
        images :=
          let pageNumbers := (nodes.map mkSource).filterMap fun s =>
            if truthyStr s.page then s.page else none
          if !pageNumbers.isEmpty && !mp.isEmpty then
            match env.imagesFor mp pageNumbers with
            | .ok imgs => imgs.take 5
            | .error _ => []
          else [] } := by
  unfold ask_question ask_question_traced
  simp only [h1, h2, h3, h4, h5]

/-! ## C2 -/

/-- C2: retrieval is history-independent.  For a fixed environment,
manual and question, two runs of `ask_question` that differ only in
the `history` argument record exactly the same retrieved passages:
the retrieval stage is computed from the current question text alone,
history enters the pipeline only after it. -/
theorem retrieval_history_independent (env : RagEnv)
    (manufacturer model question : String)
    (hist1 hist2 : Option (List ChatMsg)) :
    (ask_question_traced env manufacturer model question hist1).2 =
    (ask_question_traced env manufacturer model question hist2).2 := by
  unfold ask_question_traced
  rcases hm : resolveManualPath env manufacturer model with _ | mp <;> simp only [hm]
  rcases hl : env.initLLM with e | u <;> (try rfl)
  rcases hi : env.loadIndex mp with e | u2 <;> (try rfl)
  rcases hr : env.retrieve mp question with e | nodes <;> (try rfl)
  simp only
  cases env.complete (buildPrompt
    (String.intercalate "\n\n" (nodes.map (fun n => n.text))) question hist1) <;>
  cases env.complete (buildPrompt
    (String.intercalate "\n\n" (nodes.map (fun n => n.text))) question hist2) <;>
  rfl

/-! ## C3 -/

/-- C3: `ask_question` is a total function of its environment (so it
never raises to its caller), and on every failure -- no resolvable
manual, LLM initialisation error, index build/load error, retrieval
error or generation error -- the result is structured: no answer, a
non-empty human-readable error message, empty sources, confidence 0
and no images. -/
theorem failure_is_structured (env : RagEnv)
    (manufacturer model question : String) (history : Option (List ChatMsg))
    (hfail : (ask_question env manufacturer model question history).answer = none) :
    (∃ msg, (ask_question env manufacturer model question history).error = some msg
        ∧ 0 < msg.length)
    ∧ (ask_question env manufacturer model question history).sources = []
    ∧ (ask_question env manufacturer model question history).confidence = 0
    ∧ (ask_question env manufacturer model question history).images = [] := by
  unfold ask_question ask_question_traced at hfail ⊢
  rcases hm : resolveManualPath env manufacturer model with _ | mp <;>
    simp only [hm] at hfail ⊢
  · exact ⟨⟨_, rfl, noManual_msg_pos manufacturer model⟩, rfl, rfl, rfl⟩
  · rcases hl : env.initLLM with e | u <;> simp only [hl] at hfail ⊢
    · exact ⟨⟨_, rfl, fail_msg_pos e⟩, rfl, rfl, rfl⟩
    · rcases hi : env.loadIndex mp with e | u2 <;> simp only [hi] at hfail ⊢
      · exact ⟨⟨_, rfl, fail_msg_pos e⟩, rfl, rfl, rfl⟩
      · rcases hr : env.retrieve mp question with e | nodes <;>
          simp only [hr] at hfail ⊢
        · exact ⟨⟨_, rfl, fail_msg_pos e⟩, rfl, rfl, rfl⟩
        · rcases hc : env.complete (buildPrompt
            (String.intercalate "\n\n" (nodes.map (fun n => n.text)))
              question history) with e | ans <;> simp only [hc] at hfail ⊢
          · exact ⟨⟨_, rfl, fail_msg_pos e⟩, rfl, rfl, rfl⟩
          · simp [failResult, noManualResult] at hfail

/-- C3 witness: with an empty catalog the engine fails and the failure
is structured as claimed. -/
theorem failure_is_structured_witness :
    (∃ msg, (ask_question noManualEnv "Acme" "X1" "q" none).error = some msg
        ∧ 0 < msg.length)
    ∧ (ask_question noManualEnv "Acme" "X1" "q" none).sources = []
    ∧ (ask_question noManualEnv "Acme" "X1" "q" none).confidence = 0
    ∧ (ask_question noManualEnv "Acme" "X1" "q" none).images = [] :=
  failure_is_structured noManualEnv "Acme" "X1" "q" none rfl

/-! ## C6 -/

/-- C6: a successful answer carries at most 5 images, and a failure of
image extraction is absorbed: against an environment whose image
lookup always raises (but is otherwise identical), the engine returns
the same answer, error, sources and confidence, with an empty image
list -- image extraction can never fail the overall answer. -/
theorem images_capped_and_failures_absorbed (env envBad : RagEnv) (emsg : String)
    (manufacturer model question : String) (history : Option (List ChatMsg))
    (hfetch : envBad.fetch = env.fetch)
    (hllm : envBad.initLLM = env.initLLM)
    (hload : envBad.loadIndex = env.loadIndex)
    (hret : envBad.retrieve = env.retrieve)
    (hcomp : envBad.complete = env.complete)
    (hbad : ∀ p pages, envBad.imagesFor p pages = .error emsg) :
    (ask_question env manufacturer model question history).images.length ≤ 5
    ∧ (ask_question envBad manufacturer model question history).images = []
    ∧ (ask_question envBad manufacturer model question history).answer
        = (ask_question env manufacturer model question history).answer
    ∧ (ask_question envBad manufacturer model question history).error
        = (ask_question env manufacturer model question history).error
    ∧ (ask_question envBad manufacturer model question history).sources
        = (ask_question env manufacturer model question history).sources
    ∧ (ask_question envBad manufacturer model question history).confidence
        = (ask_question env manufacturer model question history).confidence := by
  have hres : resolveManualPath envBad manufacturer model
      = resolveManualPath env manufacturer model := by
    unfold resolveManualPath get_manual_path; rw [hfetch]
  unfold ask_question ask_question_traced
  rw [hres, hllm, hload, hret, hcomp]
  rcases hm : resolveManualPath env manufacturer model with _ | mp <;> simp only [hm]
  · simp [noManualResult]
  · rcases hl : env.initLLM with e | u <;> simp only [hl]
    · simp [failResult]
    · rcases hi : env.loadIndex mp with e | u2 <;> simp only [hi]
      · simp [failResult]
      · rcases hr : env.retrieve mp question with e | nodes <;> simp only [hr]
        · simp [failResult]
        · rcases hc : env.complete (buildPrompt
              (String.intercalate "\n\n" (nodes.map (fun n => n.text)))
                question history) with e | ans <;> simp only [hc]
          · simp [failResult]
          · rw [hbad mp]
            refine ⟨?_, ?_, trivial, trivial, trivial, trivial⟩
            · split
              · rcases env.imagesFor mp _ with e2 | imgs
                · simp
                · simp [List.length_take]
              · simp
            · split <;> rfl

/-- C6 witness: a concrete successful run against `successEnv` and its
image-failing twin `badImagesEnv`. -/
theorem images_capped_and_failures_absorbed_witness :
    (ask_question successEnv "Acme" "X1" "q" none).images.length ≤ 5
    ∧ (ask_question badImagesEnv "Acme" "X1" "q" none).images = []
    ∧ (ask_question badImagesEnv "Acme" "X1" "q" none).answer
        = (ask_question successEnv "Acme" "X1" "q" none).answer
    ∧ (ask_question badImagesEnv "Acme" "X1" "q" none).error
        = (ask_question successEnv "Acme" "X1" "q" none).error
    ∧ (ask_question badImagesEnv "Acme" "X1" "q" none).sources
        = (ask_question successEnv "Acme" "X1" "q" none).sources
    ∧ (ask_question badImagesEnv "Acme" "X1" "q" none).confidence
        = (ask_question successEnv "Acme" "X1" "q" none).confidence :=
  images_capped_and_failures_absorbed successEnv badImagesEnv
    "image extraction blew up" "Acme" "X1" "q" none
    rfl rfl rfl rfl rfl (fun _ _ => rfl)

/-! ## C8 -/

/-- C8: the index cache key is the stem of the document's base
filename, so any two paths with the same basename share the persisted
index location; and a second sequential call of
`_load_or_create_index` on the same file takes the load branch, so
build side effects happen at most once. -/
theorem index_key_collision_and_reuse (p1 p2 : String) (fs : IndexFS) (p : String)
    (hbase : baseName p1 = baseName p2) :
    indexPath p1 = indexPath p2
    ∧ (load_or_create_index (load_or_create_index fs p).2 p).1
        = IndexAction.loaded := by
  constructor
  · unfold indexPath manualName; rw [hbase]
  · unfold load_or_create_index
    by_cases h : (fs.pathExists (indexPath p)
        && fs.pathExists (indexPath p ++ "/docstore.json")) = true
    · simp [h]
    · simp [h]

/-- C8 witness: `a/m.pdf` and `b/m.pdf` collide in the cache, and on an
empty file system the second call for `c/m.pdf` is a load. -/
theorem index_key_collision_and_reuse_witness :
    indexPath "a/m.pdf" = indexPath "b/m.pdf"
    ∧ (load_or_create_index
        (load_or_create_index { pathExists := fun _ => false } "c/m.pdf").2
        "c/m.pdf").1 = IndexAction.loaded :=
  index_key_collision_and_reuse "a/m.pdf" "b/m.pdf"
    { pathExists := fun _ => false } "c/m.pdf" (by decide)

/-! ## C9 -/

/-- `specImagesForPages` of an empty index is empty. -/
theorem spec_nil (pdfName : String) (pages : List String) :
    specImagesForPages [] pdfName pages = [] := by
  induction pages with
  | nil => rfl
  | cons p rest ih => simp [specImagesForPages, lookupAssoc]

/-- The accumulating loop of `get_images_for_pages` computes the
specification-side flat map. -/
theorem imagesLoop_eq (pageImages : PageIndex) (pdfName : String) :
    ∀ (pages : List String) (acc : List ImageOut),
      imagesLoop pageImages pdfName pages acc
        = acc ++ specImagesForPages pageImages pdfName pages := by
  intro pages
  induction pages with
  | nil => intro acc; simp [imagesLoop, specImagesForPages]
  | cons p rest ih =>
      intro acc
      unfold imagesLoop
      rcases h : lookupAssoc pageImages p with _ | imgs <;>
        simp [specImagesForPages, h, ih, List.append_assoc]

/-- The source loop agrees with the specification-side flat map on
every input. -/
theorem get_images_for_pages_eq_spec (st : ImgState) (doc : PdfDoc)
    (pdfPath : String) (pages : List String) :
    (get_images_for_pages st doc pdfPath pages).1
      = specImagesForPages (extract_images_from_pdf st doc 100 100).1
          (manualName pdfPath) pages := by
  unfold get_images_for_pages
  by_cases he : (extract_images_from_pdf st doc 100 100).1.isEmpty
  · have h0 : (extract_images_from_pdf st doc 100 100).1 = [] :=
      List.isEmpty_iff.mp he
    simp [he, h0, spec_nil]
  · simp [he, imagesLoop_eq]

/-- C9: `get_images_for_pages` returns exactly the cached images of the
requested page labels, in the order the labels appear in the request;
a requested page with no surviving entry contributes nothing. -/
theorem images_exactly_requested_pages_in_order (st : ImgState) (doc : PdfDoc)
    (pdfPath : String) (pages : List String) :
    (get_images_for_pages st doc pdfPath pages).1
      = specImagesForPages (extract_images_from_pdf st doc 100 100).1
          (manualName pdfPath) pages :=
  get_images_for_pages_eq_spec st doc pdfPath pages

/-! ## C10 -/

/-- C10: the documentation lookup falls back to scanning every
manufacturer, so for any manufacturer argument (empty or unknown
included), a model name that exists under some manufacturer is always
resolved to a model entry rather than failing. -/
theorem lookup_falls_back_to_all_manufacturers (db : Database)
    (manufacturer model : String) (mfr : Manufacturer) (info : ModelInfo)
    (hmem : mfr ∈ db) (hfound : lookupAssoc mfr.models model = some info) :
    ∃ found, get_model_info db manufacturer model = some found
      ∧ ∃ m2 ∈ db, lookupAssoc m2.models model = some found := by
  unfold get_model_info
  rcases hfind : db.find? (fun m => m.name == manufacturer) with _ | mfr0 <;>
    simp only [hfind]
  · rcases hfs : db.findSome? (fun m => lookupAssoc m.models model) with _ | found
    · rw [List.findSome?_eq_none_iff] at hfs
      exact absurd hfound (by simp [hfs mfr hmem])
    · rcases List.exists_of_findSome?_eq_some hfs with ⟨m2, hm2, hl2⟩
      exact ⟨found, hfs, m2, hm2, hl2⟩
  · rcases hdl : lookupAssoc mfr0.models model with _ | i <;> simp only [hdl]
    · rcases hfs : db.findSome? (fun m => lookupAssoc m.models model) with _ | found
      · rw [List.findSome?_eq_none_iff] at hfs
        exact absurd hfound (by simp [hfs mfr hmem])
      · rcases List.exists_of_findSome?_eq_some hfs with ⟨m2, hm2, hl2⟩
        exact ⟨found, hfs, m2, hm2, hl2⟩
    · exact ⟨i, rfl, mfr0, List.mem_of_find?_eq_some hfind, hdl⟩

/-- C10 witness: with an empty manufacturer argument, the model AS50
(catalogued under Baxter) still resolves. -/
theorem lookup_falls_back_witness :
    ∃ found, get_model_info DEVICE_DATABASE "" "AS50" = some found
      ∧ ∃ m2 ∈ DEVICE_DATABASE, lookupAssoc m2.models "AS50" = some found :=
  lookup_falls_back_to_all_manufacturers DEVICE_DATABASE "" "AS50"
    baxterEntry baxterInfo (by decide) rfl


theorem round3_zero : round3 0 = 0 := by
  norm_num [round3]

/-- C1 (amended): on a successful answer, the confidence equals the
arithmetic mean of the retrieved passages' scores rounded to three
decimals (an absent score contributes 0), and is exactly 0 when no
passages are retrieved.  The unrounded mean is not returned; see the
counterexample. -/
theorem confidence_is_rounded_mean (env : RagEnv)
    (manufacturer model question : String) (history : Option (List ChatMsg))
    (mp ans : String) (nodes : List RetrievedNode)
    (h1 : resolveManualPath env manufacturer model = some mp)
    (h2 : env.initLLM = .ok ())
    (h3 : env.loadIndex mp = .ok ())
    (h4 : env.retrieve mp question = .ok nodes)
    (h5 : env.complete (buildPrompt
            (String.intercalate "\n\n" (nodes.map (fun n => n.text)))
            question history) = .ok ans) :
    (ask_question env manufacturer model question history).confidence
      = if nodes = [] then 0
        else round3 ((nodes.map (fun n => n.score.getD 0)).sum
          / (nodes.length : ℚ)) := by
  rw [ask_question_success env manufacturer model question history mp ans nodes
    h1 h2 h3 h4 h5]
  cases nodes with
  | nil => simp [round3_zero]
  | cons n rest => simp

/-- Witness for C1: the amended statement at a concrete successful
run. -/
theorem confidence_is_rounded_mean_witness :
    (ask_question successEnv "Acme" "X1" "q" none).confidence
      = if ([nodeA, nodeB, nodeC] : List RetrievedNode) = [] then 0
        else round3 ((([nodeA, nodeB, nodeC] : List RetrievedNode).map
            (fun n => n.score.getD 0)).sum / 3) :=
  confidence_is_rounded_mean successEnv "Acme" "X1" "q" none
    "manuals/x1.pdf" "the answer" [nodeA, nodeB, nodeC] rfl rfl rfl rfl rfl

/-- Counterexample for C1 as stated: with retrieved scores 0.1, 0.2
and 0.4 the mean is 7/30, but the returned confidence is the rounded
value 0.233, which differs from the mean. -/
theorem confidence_differs_from_exact_mean :
    (ask_question_traced successEnv "Acme" "X1" "q" none).2
        = some [nodeA, nodeB, nodeC]
    ∧ (nodeA.score.getD 0 + nodeB.score.getD 0 + nodeC.score.getD 0) / 3
        = 7/30
    ∧ (ask_question successEnv "Acme" "X1" "q" none).confidence ≠ 7/30 := by
  refine ⟨rfl, by norm_num [nodeA, nodeB, nodeC], ?_⟩
  rw [ask_question_success successEnv "Acme" "X1" "q" none "manuals/x1.pdf"
    "the answer" [nodeA, nodeB, nodeC] rfl rfl rfl rfl rfl]
  simp only [round3, nodeA, nodeB, nodeC, List.map_cons, List.map_nil,
    List.sum_cons, List.sum_nil, List.isEmpty_cons, List.length_cons,
    List.length_nil, Option.getD_some, if_false]
  norm_num



/-- C4: when a manual has a remote URL, no local file, and the
download fails, `_get_manual_path` returns no path and signals the
download failure; when a manual has no remote URL and no local file,
it returns no path and signals that no manual is available; and the
two signals are distinct. -/
theorem fetch_failed_distinct_from_not_found
    (env1 env2 : FetchEnv) (m1 mo1 m2 mo2 : String) (docs1 docs2 : ModelInfo)
    (h11 : get_model_docs env1.db m1 mo1 = some docs1)
    (h12 : truthyStr docs1.localPath = true)
    (h13 : env1.fileExists (docs1.localPath.getD "") = false)
    (h14 : truthyStr docs1.remote = true)
    (h15 : env1.downloadOutcome (docs1.remote.getD "") (docs1.localPath.getD "")
             ≠ DownloadOutcome.success)
    (h21 : get_model_docs env2.db m2 mo2 = some docs2)
    (h22 : truthyStr docs2.localPath = true)
    (h23 : env2.fileExists (docs2.localPath.getD "") = false)
    (h24 : truthyStr docs2.remote = false) :
    (get_manual_path env1 m1 mo1).1 = none
    ∧ (get_manual_path env1 m1 mo1).2.getLast?
        = some ("⚠️ Could not download manual for " ++ m1 ++ " " ++ mo1)
    ∧ (get_manual_path env2 m2 mo2).1 = none
    ∧ (get_manual_path env2 m2 mo2).2
        = ["⚠️ No manual available for " ++ m2 ++ " " ++ mo2]
    ∧ ("⚠️ Could not download manual for " ++ m1 ++ " " ++ mo1)
        ≠ ("⚠️ No manual available for " ++ m1 ++ " " ++ mo1) := by
  have hmsg : ("⚠️ Could not download manual for " ++ m1 ++ " " ++ mo1)
      ≠ ("⚠️ No manual available for " ++ m1 ++ " " ++ mo1) := by
    intro heq
    have hlen := congrArg String.length heq
    simp only [String.length_append] at hlen
    have e1 : ("⚠️ Could not download manual for ").length = 33 := by decide
    have e2 : ("⚠️ No manual available for ").length = 27 := by decide
    omega
  have scenario1 : (get_manual_path env1 m1 mo1).1 = none
      ∧ (get_manual_path env1 m1 mo1).2.getLast?
        = some ("⚠️ Could not download manual for " ++ m1 ++ " " ++ mo1) := by
    unfold get_manual_path
    simp only [h11, h12, h13, h14, Bool.not_true, Bool.false_eq_true,
      if_false, if_true]
    rcases ho : env1.downloadOutcome (docs1.remote.getD "") (docs1.localPath.getD "")
      with _ | _ | e | e
    · exact absurd ho h15
    · simp [download_pdf]
    · simp [download_pdf]
    · simp [download_pdf]
  have scenario2 : (get_manual_path env2 m2 mo2).1 = none
      ∧ (get_manual_path env2 m2 mo2).2
        = ["⚠️ No manual available for " ++ m2 ++ " " ++ mo2] := by
    unfold get_manual_path
    simp [h21, h22, h23, h24]
  exact ⟨scenario1.1, scenario1.2, scenario2.1, scenario2.2, hmsg⟩

/-- Witness for C4: both fetcher scenarios run concretely against
`offlineFetch`. -/
theorem fetch_failed_distinct_witness :
    (get_manual_path offlineFetch "Wye" "M1").1 = none
    ∧ (get_manual_path offlineFetch "Wye" "M1").2.getLast?
        = some ("⚠️ Could not download manual for " ++ "Wye" ++ " " ++ "M1")
    ∧ (get_manual_path offlineFetch "Wye" "M2").1 = none
    ∧ (get_manual_path offlineFetch "Wye" "M2").2
        = ["⚠️ No manual available for " ++ "Wye" ++ " " ++ "M2"]
    ∧ ("⚠️ Could not download manual for " ++ "Wye" ++ " " ++ "M1")
        ≠ ("⚠️ No manual available for " ++ "Wye" ++ " " ++ "M1") :=
  fetch_failed_distinct_from_not_found offlineFetch offlineFetch
    "Wye" "M1" "Wye" "M2"
    { dtype := "Pump", remote := some "http://host/m1.pdf",
      localPath := some "manuals/m1.pdf" }
    { dtype := "Pump", remote := none, localPath := some "manuals/m2.pdf" }
    rfl rfl rfl rfl (by decide) rfl rfl rfl rfl



/-- The display text is never longer than 503 characters. -/
theorem displayText_le_503 (t : String) : (displayText t).length ≤ 503 := by
  unfold displayText
  split
  · rw [String.length_append, String.take_eq]
    have h1 : (String.mk (t.1.take 500)).length = (t.1.take 500).length := rfl
    have h2 : (t.1.take 500).length ≤ 500 := by
      rw [List.length_take]; omega
    have h3 : ("..." : String).length = 3 := rfl
    omega
  · omega

/-- C5 (amended): every source of a successful answer has display
text of at most 503 characters -- a chunk longer than 500 characters
is cut to its first 500 characters and an ellipsis is appended, a
shorter chunk is kept whole -- and its score is the node score
rounded to three decimals. -/
theorem sources_display_truncation (env : RagEnv)
    (manufacturer model question : String) (history : Option (List ChatMsg))
    (mp ans : String) (nodes : List RetrievedNode)
    (h1 : resolveManualPath env manufacturer model = some mp)
    (h2 : env.initLLM = .ok ())
    (h3 : env.loadIndex mp = .ok ())
    (h4 : env.retrieve mp question = .ok nodes)
    (h5 : env.complete (buildPrompt
            (String.intercalate "\n\n" (nodes.map (fun n => n.text)))
            question history) = .ok ans) :
    ∀ s ∈ (ask_question env manufacturer model question history).sources,
      s.text.length ≤ 503
      ∧ ∃ n ∈ nodes, s.text = displayText n.text
          ∧ s.score = round3 (n.score.getD 0)
          ∧ (n.text.length ≤ 500 → s.text = n.text)
          ∧ (500 < n.text.length → s.text = n.text.take 500 ++ "...") := by
  rw [ask_question_success env manufacturer model question history mp ans nodes
    h1 h2 h3 h4 h5]
  intro s hs
  simp only at hs
  rcases List.mem_map.mp hs with ⟨n, hn, hsn⟩
  subst hsn
  refine ⟨displayText_le_503 n.text, n, hn, rfl, rfl, ?_, ?_⟩
  · intro hle
    show displayText n.text = n.text
    unfold displayText
    split
    · omega
    · rfl
  · intro hgt
    show displayText n.text = n.text.take 500 ++ "..."
    unfold displayText
    split
    · rfl
    · omega



/-- Witness for C5: the amended statement at the concrete over-long
chunk. -/
theorem sources_display_truncation_witness :
    (mkSource longNode).text.length ≤ 503
    ∧ ∃ n ∈ [longNode], (mkSource longNode).text = displayText n.text
        ∧ (mkSource longNode).score = round3 (n.score.getD 0)
        ∧ (n.text.length ≤ 500 → (mkSource longNode).text = n.text)
        ∧ (500 < n.text.length →
            (mkSource longNode).text = n.text.take 500 ++ "...") :=
  sources_display_truncation longChunkEnv "Acme" "X1" "q" none
    "manuals/x1.pdf" "the answer" [longNode] rfl rfl rfl rfl rfl
    (mkSource longNode)
    (by rw [ask_question_success longChunkEnv "Acme" "X1" "q" none
          "manuals/x1.pdf" "the answer" [longNode] rfl rfl rfl rfl rfl]
        simp)

set_option maxRecDepth 4000 in
/-- Counterexample for C5 as stated: a 501-character chunk yields a
source whose display text is 503 characters long, more than the
claimed bound of 500. -/
theorem source_text_exceeds_500 :
    ¬ (∀ s ∈ (ask_question longChunkEnv "Acme" "X1" "q" none).sources,
        s.text.length ≤ 500) := by
  intro hall
  have hmem : mkSource longNode
      ∈ (ask_question longChunkEnv "Acme" "X1" "q" none).sources := by
    rw [ask_question_success longChunkEnv "Acme" "X1" "q" none
      "manuals/x1.pdf" "the answer" [longNode] rfl rfl rfl rfl rfl]
    simp
  have hl : longNode.text.length = 501 := by
    show (List.replicate 501 'a').length = 501
    rw [List.length_replicate]
  have hlen : (mkSource longNode).text.length = 503 := by
    show (displayText longNode.text).length = 503
    unfold displayText
    rw [if_pos (by omega)]
    rw [String.length_append, String.take_eq]
    have h2 : (longNode.text.1.take 500).length = 500 := by
      have h5 : longNode.text.1.length = 501 := hl
      rw [List.length_take]; omega
    have h3 : ("..." : String).length = 3 := rfl
    have h4 : (String.mk (longNode.text.1.take 500)).length
        = (longNode.text.1.take 500).length := rfl
    omega
  have := hall (mkSource longNode) hmem
  omega



/-- Every entry surviving the per-page filter meets the minimum size. -/
theorem extractPage_min (pageLabel : String) (imgs : List RawImage)
    (minWidth minHeight : Nat) (e : ImgEntry)
    (he : e ∈ extractPage pageLabel imgs minWidth minHeight) :
    minWidth ≤ e.width ∧ minHeight ≤ e.height := by
  unfold extractPage at he
  rcases List.mem_filterMap.mp he with ⟨⟨i, img⟩, hmem, heq⟩
  simp only at heq
  split at heq
  · exact absurd heq (by simp)
  · split at heq
    · exact absurd heq (by simp)
    · rename_i hsize
      rw [Option.some_inj] at heq
      subst heq
      simp only [Bool.or_eq_true, decide_eq_true_eq, not_or] at hsize
      constructor <;> (dsimp only; omega)

/-- Every page entry of a fresh extraction pass meets the minimum size. -/
theorem extractAllPages_min (doc : PdfDoc) (minWidth minHeight : Nat)
    (pl : String) (es : List ImgEntry)
    (h : (pl, es) ∈ extractAllPages doc minWidth minHeight) :
    ∀ e ∈ es, minWidth ≤ e.width ∧ minHeight ≤ e.height := by
  unfold extractAllPages at h
  rcases List.mem_filterMap.mp h with ⟨⟨i, imgs⟩, hmem, heq⟩
  simp only at heq
  split at heq
  · exact absurd heq (by simp)
  · split at heq
    · exact absurd heq (by simp)
    · rw [Option.some_inj] at heq
      intro e he
      have hes : e ∈ extractPage (toString (i + 1)) imgs minWidth minHeight := by
        have h2 := congrArg Prod.snd heq
        simp only at h2
        rw [← h2] at he
        exact he
      exact extractPage_min _ _ _ _ e hes

/-- C7 (amended): starting from a fresh state (no persisted image
index), extraction retains no image whose stored width or height is
below the requested minimum, and `get_images_for_pages` returns no
image below the default 100 by 100 threshold.  A preexisting
persisted index is returned as-is; see the counterexample. -/
theorem extraction_respects_min_size (st : ImgState) (hfresh : st.cache = none) :
    (∀ (doc : PdfDoc) (minWidth minHeight : Nat) (pl : String)
        (es : List ImgEntry),
        (pl, es) ∈ (extract_images_from_pdf st doc minWidth minHeight).1 →
        ∀ e ∈ es, minWidth ≤ e.width ∧ minHeight ≤ e.height)
    ∧ (∀ (doc : PdfDoc) (pdfPath : String) (pages : List String),
        ∀ img ∈ (get_images_for_pages st doc pdfPath pages).1,
          100 ≤ img.width ∧ 100 ≤ img.height) := by
  have hextract : ∀ (doc : PdfDoc) (minWidth minHeight : Nat) (pl : String)
      (es : List ImgEntry),
      (pl, es) ∈ (extract_images_from_pdf st doc minWidth minHeight).1 →
      ∀ e ∈ es, minWidth ≤ e.width ∧ minHeight ≤ e.height := by
    intro doc mw mh pl es hmem e he
    unfold extract_images_from_pdf at hmem
    by_cases hp : st.pdfFound
    · rw [hfresh] at hmem
      simp only [hp, Bool.not_true, Bool.false_eq_true, if_false] at hmem
      exact extractAllPages_min doc mw mh pl es hmem e he
    · simp only [Bool.not_eq_true] at hp
      simp [hp] at hmem
  refine ⟨hextract, ?_⟩
  intro doc pdfPath pages img himg
  rw [get_images_for_pages_eq_spec] at himg
  unfold specImagesForPages at himg
  rcases List.mem_flatMap.mp himg with ⟨page, hpage, himg2⟩
  rcases hlk : lookupAssoc (extract_images_from_pdf st doc 100 100).1 page
    with _ | es
  · rw [hlk] at himg2; simp at himg2
  · rw [hlk] at himg2
    simp only [Option.getD_some] at himg2
    rcases List.mem_map.mp himg2 with ⟨e, he, hei⟩
    have hmem2 : ∃ pr ∈ (extract_images_from_pdf st doc 100 100).1,
        pr.2 = es := by
      unfold lookupAssoc at hlk
      rcases h3 : List.find? (fun p => p.1 == page)
          (extract_images_from_pdf st doc 100 100).1 with _ | pr
      · rw [h3] at hlk; simp at hlk
      · rw [h3] at hlk
        simp at hlk
        exact ⟨pr, List.mem_of_find?_eq_some h3, hlk⟩
    rcases hmem2 with ⟨pr, hpr, hpe⟩
    have hsz := hextract doc 100 100 pr.1 es
      (by rw [← hpe]; exact hpr) e he
    have hw : img.width = e.width := by rw [← hei]; rfl
    have hh : img.height = e.height := by rw [← hei]; rfl
    rw [hw, hh]
    exact hsz

/-- Witness for C7: on the concrete one-page PDF the surviving
diagram meets the threshold. -/
theorem extraction_respects_min_size_witness :
    100 ≤ bigEntry.width ∧ 100 ≤ bigEntry.height :=
  (extraction_respects_min_size freshSt rfl).1 doc7 100 100 "1" [bigEntry]
    (by decide) bigEntry (by decide)

/-- Counterexample for C7 as stated: a persisted index holding a
50 by 50 entry is returned unfiltered by extraction at the 100 by 100
threshold, and `get_images_for_pages` serves that below-threshold
image. -/
theorem cached_index_bypasses_min_size :
    (¬ ∀ (pl : String) (es : List ImgEntry),
        (pl, es) ∈ (extract_images_from_pdf seededSt emptyDoc 100 100).1 →
        ∀ e ∈ es, 100 ≤ e.width ∧ 100 ≤ e.height)
    ∧ (get_images_for_pages seededSt emptyDoc "manuals/m.pdf" ["1"]).1
        = [{ url := "/manual_images/m/tiny.png", page := "1",
             width := 50, height := 50 }] := by
  constructor
  · intro h
    have h50 := h "1" [tinyEntry] (by decide) tinyEntry (by decide)
    exact absurd h50.1 (by decide)
  · decide


end Halo
